import Mathlib

/-!
Verification of the `amazon-sagemaker-build-train-deploy` workshop repository.

The repository consists of
* a Lambda function (`src/06_API_Gateway_and_Lambda/README.md`) that fronts a
  SageMaker inference endpoint,
* two CloudFormation networking templates
  (`src/setup/vpc_mode/01_networking.yaml`, `src/setup/direct_mode/01_networking.yaml`),
* a pipeline notebook (module 8, in `src/07_invoke_API/README.md`) that builds a
  SageMaker Pipeline, registers the model and deploys it from the registry.

Each part is shallowly embedded below, followed by theorems about the embedding.
-/

namespace Workshop

/-! ## A small model of Python values, as manipulated by the Lambda function -/

/-- A Python value, restricted to the shapes the Lambda function manipulates:
`None`, strings, integers, floats (kept as their literal text, since the code
never computes with them), lists and string-keyed dicts. -/
inductive PyVal where
  | none : PyVal
  | str : String → PyVal
  | int : Int → PyVal
  | float : String → PyVal
  | list : List PyVal → PyVal
  | dict : List (String × PyVal) → PyVal
deriving Repr

/-- Python's `v == 'lit'` comparison against a string literal: true exactly
when `v` is that string (values of other types compare unequal). -/
def pyEqStr (v : PyVal) (lit : String) : Bool :=
  match v with
  | .str s => s == lit
  | _ => false

/-- Python's `str(...)` on the values above.  For the containers we only need
a placeholder rendering: the Lambda code applies `str` only to the score. -/
def pyStr : PyVal → String
  | .none => "None"
  | .str s => s
  | .int n => toString n
  | .float lit => lit
  | .list _ => "<list>"
  | .dict _ => "<dict>"

/-- Python subscripting `v[key]` with a string key.  On a dict it looks the key
up (raising `KeyError` when absent); on a string, a list or any other
non-subscriptable value it raises `TypeError`, exactly as CPython does. -/
def pyGetKey : PyVal → String → Except String PyVal
  | .dict kvs, key =>
    match kvs.lookup key with
    | some v => .ok v
    | Option.none => .error ("KeyError: " ++ key)
  | .str _, _ => .error "TypeError: string indices must be integers"
  | .list _, _ => .error "TypeError: list indices must be integers or slices, not str"
  | _, _ => .error "TypeError: object is not subscriptable"

/-- Python subscripting `v[i]` with a non-negative integer index. -/
def pyGetIdx : PyVal → Nat → Except String PyVal
  | .list xs, i =>
    match xs.get? i with
    | some v => .ok v
    | Option.none => .error "IndexError: list index out of range"
  | .str s, i =>
    match s.toList.get? i with
    | some c => .ok (.str (String.mk [c]))
    | Option.none => .error "IndexError: string index out of range"
  | .dict _, i => .error ("KeyError: " ++ toString i)
  | _, _ => .error "TypeError: object is not subscriptable"

/-! ## The Lambda function (src/06_API_Gateway_and_Lambda/README.md, lines 42-86) -/

/-- `ENDPOINT_NAME` constant of the Lambda function. -/
def ENDPOINT_NAME : String := "end-to-end-ml-sm-pipeline-endpoint-XXXXXXXXXX"

/-- One call to `runtime.invoke_endpoint(EndpointName=..., ContentType=..., Body=...)`. -/
structure InvokeCall where
  EndpointName : String
  ContentType : String
  Body : PyVal
deriving Repr

/-- `build_response(status_code, response_body)`.  The body of the returned
dict is `str(response_body['predictions'][0]['score'])`; the two subscript
operations and the index can each raise, which the `Except` monad records. -/
def build_response (status_code : Int) (response_body : PyVal) :
    Except String PyVal := do
  let predictions ← pyGetKey response_body "predictions"
  let first ← pyGetIdx predictions 0
  let score ← pyGetKey first "score"
  pure (.dict
    [("statusCode", .int status_code),
     ("body", .str (pyStr score)),
     ("headers", .dict
       [("Content-Type", .str "application/json"),
        ("Access-Control-Allow-Origin", .str "*"),
        ("Access-Control-Allow-Credentials", .str "true"),
        ("Access-Control-Allow-Headers", .str "*")])])

/-- `lambda_handler(event, context)`.  The external endpoint (invocation
followed by `json.loads` of the reply body) is abstracted as `reply`, a
function from the call made to the parsed JSON result.  The returned pair
records the list of endpoint invocations performed and the handler's return
value (`Option.none` models Python's implicit `return None`). -/
def lambda_handler (reply : InvokeCall → PyVal)
    (event : List (String × PyVal)) :
    Except String (List InvokeCall × Option PyVal) :=
  if (event.lookup "requestContext").isSome then
    match event.lookup "httpMethod" with
    | Option.none => .error "KeyError: httpMethod"
    | some m =>
      if pyEqStr m "OPTIONS" then
        (build_response 200 (.str "")).map (fun r => ([], some r))
      else if pyEqStr m "POST" then
        match event.lookup "body" with
        | Option.none => .error "KeyError: body"
        | some turbine_data =>
          let call : InvokeCall :=
            { EndpointName := ENDPOINT_NAME, ContentType := "text/csv",
              Body := turbine_data }
          let result := reply call
          (build_response 200 result).map (fun r => ([call], some r))
      else
        (build_response 405 (.str "null")).map (fun r => ([], some r))
  else
    .ok ([], Option.none)

/-! ## CIDR blocks, for the networking templates -/

/-- A CIDR block: a 32-bit base address together with a mask length. -/
structure Cidr where
  base : Nat
  maskLen : Nat
deriving DecidableEq, Repr

/-- The 32-bit address obtained from four dotted octets. -/
def ipv4 (a b c d : Nat) : Nat := ((a * 256 + b) * 256 + c) * 256 + d

/-- Number of addresses covered by the block. -/
def Cidr.size (c : Cidr) : Nat := 2 ^ (32 - c.maskLen)

/-- First address of the block. -/
def Cidr.lo (c : Cidr) : Nat := c.base / c.size * c.size

/-- Last address of the block. -/
def Cidr.hi (c : Cidr) : Nat := c.lo + c.size - 1

/-- `c.subsetOf d`: every address of `c` lies in `d`. -/
def Cidr.subsetOf (c d : Cidr) : Bool := decide (d.lo ≤ c.lo ∧ c.hi ≤ d.hi)

/-- `c.disjointWith d`: the two blocks share no address. -/
def Cidr.disjointWith (c d : Cidr) : Bool := decide (c.hi < d.lo ∨ d.hi < c.lo)

/-- All pairs of a list are in relation `r` (used for pairwise disjointness). -/
def pairwiseB (r : Cidr → Cidr → Bool) : List Cidr → Bool
  | [] => true
  | c :: cs => cs.all (r c) && pairwiseB r cs

/-! ## CloudFormation networking templates
(src/setup/vpc_mode/01_networking.yaml and src/setup/direct_mode/01_networking.yaml)

Each YAML resource is transcribed with its logical name and the properties the
development reasons about; `!Sub` strings over the stack name are embedded as
the literal suffix that follows the stack name reference. -/

/-- An `AWS::EC2::VPC` resource. -/
structure VpcRes where
  name : String
  CidrBlock : Cidr
  EnableDnsSupport : Bool
  EnableDnsHostnames : Bool
deriving DecidableEq, Repr

/-- An `AWS::EC2::Subnet` resource.  `azIndex` is the index selected from
`Fn::GetAZs` for the `AvailabilityZone` property. -/
structure SubnetRes where
  name : String
  VpcId : String
  CidrBlock : Cidr
  azIndex : Nat
deriving DecidableEq, Repr

/-- An `AWS::EC2::RouteTable` resource. -/
structure RouteTableRes where
  name : String
  VpcId : String
deriving DecidableEq, Repr

/-- The target of an `AWS::EC2::Route`: a NAT gateway or an internet gateway. -/
inductive RouteTarget where
  | natGw : String → RouteTarget
  | igw : String → RouteTarget
deriving DecidableEq, Repr

/-- An `AWS::EC2::Route` resource. -/
structure RouteRes where
  name : String
  RouteTableId : String
  DestinationCidrBlock : Cidr
  target : RouteTarget
deriving DecidableEq, Repr

/-- An `AWS::EC2::SubnetRouteTableAssociation` resource. -/
structure AssocRes where
  name : String
  SubnetId : String
  RouteTableId : String
deriving DecidableEq, Repr

/-- An `AWS::EC2::NatGateway` resource. -/
structure NatGatewayRes where
  name : String
  SubnetId : String
deriving DecidableEq, Repr

/-- An `AWS::EC2::SecurityGroup` resource. -/
structure SecurityGroupRes where
  name : String
  VpcId : String
deriving DecidableEq, Repr

/-- A stack output: logical id, the resource the value refers to (`!Ref`), and
the suffix appended to `${AWS::StackName}` in the export name. -/
structure OutputRes where
  name : String
  valueRef : String
  exportSuffix : String
deriving DecidableEq, Repr

/-- The export name of an output, as produced by
`!Sub '${AWS::StackName}<suffix>'`. -/
def OutputRes.exportName (o : OutputRes) (stackName : String) : String :=
  stackName ++ o.exportSuffix

/-- A networking template, grouping its resources by type. -/
structure NetworkTemplate where
  vpcs : List VpcRes
  internetGateways : List String
  subnets : List SubnetRes
  routeTables : List RouteTableRes
  routes : List RouteRes
  subnetAssociations : List AssocRes
  natGateways : List NatGatewayRes
  securityGroups : List SecurityGroupRes
  outputs : List OutputRes
deriving DecidableEq, Repr

/-- The vpc_mode template `src/setup/vpc_mode/01_networking.yaml`. -/
def vpcMode : NetworkTemplate where
  vpcs := [{ name := "SageMakerVPC", CidrBlock := ⟨ipv4 10 0 0 0, 16⟩,
             EnableDnsSupport := true, EnableDnsHostnames := true }]
  internetGateways := ["SageMakerInternetGateway"]
  subnets :=
    [{ name := "SageMakerPrivateSubnet1", VpcId := "SageMakerVPC",
       CidrBlock := ⟨ipv4 10 0 0 0, 24⟩, azIndex := 0 },
     { name := "SageMakerPrivateSubnet2", VpcId := "SageMakerVPC",
       CidrBlock := ⟨ipv4 10 0 1 0, 24⟩, azIndex := 1 },
     { name := "SageMakerPublicSubnet1", VpcId := "SageMakerVPC",
       CidrBlock := ⟨ipv4 10 0 2 0, 24⟩, azIndex := 0 }]
  routeTables :=
    [{ name := "SageMakerPrivateRouteTable", VpcId := "SageMakerVPC" },
     { name := "SageMakerPublicRouteTable", VpcId := "SageMakerVPC" }]
  routes :=
    [{ name := "SageMakerPrivateRoute", RouteTableId := "SageMakerPrivateRouteTable",
       DestinationCidrBlock := ⟨ipv4 0 0 0 0, 0⟩,
       target := .natGw "SageMakerNATGateway" },
     { name := "SageMakerPublicRoute", RouteTableId := "SageMakerPublicRouteTable",
       DestinationCidrBlock := ⟨ipv4 0 0 0 0, 0⟩,
       target := .igw "SageMakerInternetGateway" }]
  subnetAssociations :=
    [{ name := "SageMakerPrivateSubnet1RouteTableAssociation",
       SubnetId := "SageMakerPrivateSubnet1", RouteTableId := "SageMakerPrivateRouteTable" },
     { name := "SageMakerPrivateSubnet2RouteTableAssociation",
       SubnetId := "SageMakerPrivateSubnet2", RouteTableId := "SageMakerPrivateRouteTable" },
     { name := "studioVPCPublicSubnet1RouteTableAssociation",
       SubnetId := "SageMakerPublicSubnet1", RouteTableId := "SageMakerPublicRouteTable" }]
  natGateways := [{ name := "SageMakerNATGateway", SubnetId := "SageMakerPublicSubnet1" }]
  securityGroups := [{ name := "SageMakerSecurityGroup", VpcId := "SageMakerVPC" }]
  outputs :=
    [{ name := "SageMakerVPC", valueRef := "SageMakerVPC", exportSuffix := "-VPC" },
     { name := "SageMakerSubnet1", valueRef := "SageMakerPrivateSubnet1",
       exportSuffix := "-Subnet1" },
     { name := "SageMakerSubnet2", valueRef := "SageMakerPrivateSubnet2",
       exportSuffix := "-Subnet2" },
     { name := "SageMakerSecurityGroup", valueRef := "SageMakerSecurityGroup",
       exportSuffix := "-SecurityGroup" }]

/-- The direct_mode template `src/setup/direct_mode/01_networking.yaml`. -/
def directMode : NetworkTemplate where
  vpcs := [{ name := "SageMakerVPC", CidrBlock := ⟨ipv4 10 0 0 0, 16⟩,
             EnableDnsSupport := true, EnableDnsHostnames := true }]
  internetGateways := ["SageMakerInternetGateway"]
  subnets :=
    [{ name := "SageMakerPublicSubnet1", VpcId := "SageMakerVPC",
       CidrBlock := ⟨ipv4 10 0 0 0, 24⟩, azIndex := 0 },
     { name := "SageMakerPublicSubnet2", VpcId := "SageMakerVPC",
       CidrBlock := ⟨ipv4 10 0 1 0, 24⟩, azIndex := 1 }]
  routeTables := [{ name := "SageMakerPublicRouteTable", VpcId := "SageMakerVPC" }]
  routes :=
    [{ name := "SageMakerPublicRoute", RouteTableId := "SageMakerPublicRouteTable",
       DestinationCidrBlock := ⟨ipv4 0 0 0 0, 0⟩,
       target := .igw "SageMakerInternetGateway" }]
  subnetAssociations :=
    [{ name := "SageMakerPublicSubnet1RouteTableAssociation",
       SubnetId := "SageMakerPublicSubnet1", RouteTableId := "SageMakerPublicRouteTable" },
     { name := "SageMakerPublicSubnet2RouteTableAssociation",
       SubnetId := "SageMakerPublicSubnet2", RouteTableId := "SageMakerPublicRouteTable" }]
  natGateways := []
  securityGroups := []
  outputs :=
    [{ name := "SageMakerVPC", valueRef := "SageMakerVPC", exportSuffix := "-VPC" },
     { name := "SageMakerSubnet1", valueRef := "SageMakerPublicSubnet1",
       exportSuffix := "-Subnet1" },
     { name := "SageMakerSubnet2", valueRef := "SageMakerPublicSubnet2",
       exportSuffix := "-Subnet2" }]

/-- The template declares a NAT path: a NAT gateway together with a route whose
destination is `0.0.0.0/0` and whose target is that NAT gateway. -/
def NetworkTemplate.declaresNatPath (t : NetworkTemplate) : Bool :=
  t.natGateways.any fun n =>
    t.routes.any fun r =>
      r.DestinationCidrBlock == ⟨ipv4 0 0 0 0, 0⟩ && r.target == .natGw n.name

/-- The template declares a virtual network, subnets, route tables, a NAT path
and a security group, as claimed of the templates collectively. -/
def NetworkTemplate.declaresAllNetworking (t : NetworkTemplate) : Bool :=
  !t.vpcs.isEmpty && !t.subnets.isEmpty && !t.routeTables.isEmpty &&
  t.declaresNatPath && !t.securityGroups.isEmpty

/-- The subnets of a template that route to the internet through a NAT gateway:
those associated to a route table whose default route targets a NAT gateway.
In vpc_mode these are exactly the subnets named private. -/
def NetworkTemplate.natRoutedSubnets (t : NetworkTemplate) : List String :=
  (t.subnets.filter fun s =>
    t.subnetAssociations.any fun a =>
      a.SubnetId == s.name &&
      t.routes.any fun r =>
        r.RouteTableId == a.RouteTableId &&
        r.DestinationCidrBlock == ⟨ipv4 0 0 0 0, 0⟩ &&
        (match r.target with | .natGw _ => true | .igw _ => false)).map (·.name)

/-! ## The pipeline notebook (module 8, in src/07_invoke_API/README.md)

The notebook declares workflow parameters, builds processing / training /
register-model steps, assembles them into a `Pipeline`, runs it, approves the
registered model package and deploys it.  The cells are transcribed as data. -/

/-- The kind of a workflow parameter (`ParameterString` / `ParameterInteger`). -/
inductive ParamKind where
  | string
  | integer
deriving DecidableEq, Repr

/-- A workflow parameter: `ParameterString(name=..., default_value=...)` or
`ParameterInteger(name=..., default_value=...)`.  Integer defaults are kept as
their decimal text. -/
structure WorkflowParam where
  name : String
  kind : ParamKind
  defaultValue : String
deriving DecidableEq, Repr

/-- The S3 folder prefix used by the notebook (`prefix = 'end-to-end-ml'`). -/
def folderName : String := "end-to-end-ml"

/-- `'s3://{0}/{1}/...'.format(bucket_name, prefix)` with a trailing path. -/
def s3Path (bucket tail : String) : String :=
  "s3://" ++ bucket ++ "/" ++ folderName ++ "/" ++ tail

def raw_data_path_param (bucket : String) : WorkflowParam :=
  ⟨"raw_data_path", .string, s3Path bucket "data/raw/"⟩

def train_data_path_param (bucket : String) : WorkflowParam :=
  ⟨"train_data_path", .string, s3Path bucket "data/preprocessed/train/"⟩

def val_data_path_param (bucket : String) : WorkflowParam :=
  ⟨"val_data_path", .string, s3Path bucket "data/preprocessed/val/"⟩

def test_data_path_param (bucket : String) : WorkflowParam :=
  ⟨"test_data_path", .string, s3Path bucket "data/preprocessed/test/"⟩

def model_path_param (bucket : String) : WorkflowParam :=
  ⟨"model_path", .string, s3Path bucket "output/sklearn/model.tar.gz"⟩

def processing_instance_type_param : WorkflowParam :=
  ⟨"processing_instance_type", .string, "ml.m5.large"⟩

def processing_instance_count_param : WorkflowParam :=
  ⟨"processing_instance_count", .integer, "1"⟩

def train_test_split_ratio_param : WorkflowParam :=
  ⟨"train_test_split_ratio", .string, "0.2"⟩

def max_depth_param : WorkflowParam := ⟨"max_depth", .string, "3"⟩

def eta_param : WorkflowParam := ⟨"eta", .string, "0.1"⟩

def gamma_param : WorkflowParam := ⟨"gamma", .string, "0"⟩

def min_child_weight_param : WorkflowParam := ⟨"min_child_weight", .string, "1"⟩

def objective_param : WorkflowParam := ⟨"objective", .string, "binary:logistic"⟩

def num_round_param : WorkflowParam := ⟨"num_round", .string, "10"⟩

def eval_metric_param : WorkflowParam := ⟨"eval_metric", .string, "auc"⟩

def training_instance_type_param : WorkflowParam :=
  ⟨"training_instance_type", .string, "ml.m5.xlarge"⟩

def training_instance_count_param : WorkflowParam :=
  ⟨"training_instance_count", .integer, "1"⟩

def output_path_param (bucket : String) : WorkflowParam :=
  ⟨"output_path", .string, s3Path bucket "output/"⟩

def deploy_instance_type_param : WorkflowParam :=
  ⟨"deploy_instance_type", .string, "ml.m5.2xlarge"⟩

def model_approval_status_param : WorkflowParam :=
  ⟨"model_approval_status", .string, "PendingManualApproval"⟩

/-- The 20 workflow parameters, in the order the notebook declares them. -/
def declaredParams (bucket : String) : List WorkflowParam :=
  [raw_data_path_param bucket,
   train_data_path_param bucket,
   val_data_path_param bucket,
   test_data_path_param bucket,
   model_path_param bucket,
   processing_instance_type_param,
   processing_instance_count_param,
   train_test_split_ratio_param,
   max_depth_param,
   eta_param,
   gamma_param,
   min_child_weight_param,
   objective_param,
   num_round_param,
   eval_metric_param,
   training_instance_type_param,
   training_instance_count_param,
   output_path_param bucket,
   deploy_instance_type_param,
   model_approval_status_param]

/-- An S3 location as written in the notebook: either a workflow parameter
(by name) or a reference to another step's output
(`step.properties.ProcessingOutputConfig.Outputs[name].S3Output.S3Uri`, or
`step.properties.ModelArtifacts.S3ModelArtifacts`). -/
inductive S3Ref where
  | param : String → S3Ref
  | stepOutput : String → String → S3Ref
  | stepModelArtifacts : String → S3Ref
deriving DecidableEq, Repr

/-- A `ProcessingOutput(output_name=..., source=..., destination=...)`. -/
structure ProcessingOutputDef where
  output_name : String
  source : String
  destination : S3Ref
deriving DecidableEq, Repr

/-- The `ProcessingStep` built in the notebook. -/
structure ProcessingStepDef where
  name : String
  inputs : List (String × S3Ref)
  outputs : List ProcessingOutputDef
deriving DecidableEq, Repr

/-- A `TrainingInput(s3_data=..., content_type=...)`. -/
structure TrainingInputDef where
  s3_data : S3Ref
  content_type : String
deriving DecidableEq, Repr

/-- The `TrainingStep` built in the notebook. -/
structure TrainingStepDef where
  name : String
  inputs : List (String × TrainingInputDef)
deriving DecidableEq, Repr

/-- The `RegisterModel` step built in the notebook; `approval_status` is the
name of the workflow parameter passed for it. -/
structure RegisterModelDef where
  name : String
  model_package_group_name : String
  approval_status : String
deriving DecidableEq, Repr

/-- `processing_step` (notebook cell around lines 287-298 of the source). -/
def processing_step : ProcessingStepDef where
  name := "Processing"
  inputs := [("raw_data", .param "raw_data_path")]
  outputs :=
    [{ output_name := "train_data", source := "/opt/ml/processing/train",
       destination := .param "train_data_path" },
     { output_name := "val_data", source := "/opt/ml/processing/val",
       destination := .param "val_data_path" },
     { output_name := "test_data", source := "/opt/ml/processing/test",
       destination := .param "test_data_path" },
     { output_name := "model", source := "/opt/ml/processing/model",
       destination := .param "model_path" }]

/-- `training_step` (notebook cell around lines 364-387 of the source). -/
def training_step : TrainingStepDef where
  name := "Training"
  inputs :=
    [("train",
      { s3_data := .stepOutput "Processing" "train_data", content_type := "text/csv" }),
     ("validation",
      { s3_data := .stepOutput "Processing" "val_data", content_type := "text/csv" })]

/-- `register_model_step` (notebook cell around lines 493-507 of the source). -/
def register_model_step : RegisterModelDef where
  name := "RegisterModel"
  model_package_group_name := "end-to-end-ml-sm-model-package-group"
  approval_status := "model_approval_status"

/-- A step of the assembled pipeline. -/
inductive PipelineStep where
  | processing : ProcessingStepDef → PipelineStep
  | training : TrainingStepDef → PipelineStep
  | registerModel : RegisterModelDef → PipelineStep
deriving DecidableEq, Repr

/-- The `Pipeline(...)` object built in the notebook. -/
structure PipelineDef where
  name : String
  parameters : List WorkflowParam
  steps : List PipelineStep
deriving DecidableEq, Repr

/-- `pipeline` (notebook cell around lines 526-556 of the source). -/
def pipeline (bucket : String) : PipelineDef where
  name := "end-to-end-ml-sagemaker-pipeline"
  parameters :=
    [raw_data_path_param bucket,
     train_data_path_param bucket,
     val_data_path_param bucket,
     test_data_path_param bucket,
     model_path_param bucket,
     processing_instance_type_param,
     processing_instance_count_param,
     train_test_split_ratio_param,
     max_depth_param,
     eta_param,
     gamma_param,
     min_child_weight_param,
     objective_param,
     num_round_param,
     eval_metric_param,
     training_instance_type_param,
     training_instance_count_param,
     output_path_param bucket,
     deploy_instance_type_param,
     model_approval_status_param]
  steps := [.processing processing_step, .training training_step,
            .registerModel register_model_step]

/-- A training step depends on a processing step when one of its inputs
references that step's outputs through its properties. -/
def trainingDependsOnProcessing (t : TrainingStepDef) (p : ProcessingStepDef) : Bool :=
  t.inputs.any fun i =>
    match i.2.s3_data with
    | .stepOutput s _ => s == p.name
    | _ => false

/-- The notebook actions after the pipeline definition, in cell order:
upsert and start the pipeline, wait for it, look up the registered model
package, describe it, set its approval status, construct the `ModelPackage`
and deploy it, then test and delete the endpoint. -/
inductive NotebookAction where
  | upsertPipeline
  | startPipeline
  | waitPipeline
  | lookupModelPackageArn
  | describeModelPackage
  | updateModelPackage : String → NotebookAction
  | constructModelPackage
  | deployModelPackage : String → NotebookAction
  | predictEndpoint
  | deleteEndpoint
deriving DecidableEq, Repr

/-- The execution section of the notebook (cells from `pipeline.upsert` to
`predictor.delete_endpoint()`), in source order. -/
def executionCells : List NotebookAction :=
  [.upsertPipeline,
   .startPipeline,
   .waitPipeline,
   .lookupModelPackageArn,
   .describeModelPackage,
   .updateModelPackage "Approved",
   .constructModelPackage,
   .deployModelPackage "ml.m5.2xlarge",
   .predictEndpoint,
   .deleteEndpoint]

/-- Is the action a `model_package.deploy(...)` call? -/
def isDeploy : NotebookAction → Bool
  | .deployModelPackage _ => true
  | _ => false

/-- Is the action an `update_model_package(..., ModelApprovalStatus="Approved")`
call? -/
def isApprove : NotebookAction → Bool
  | .updateModelPackage s => s == "Approved"
  | _ => false

/-! ## Concrete inputs used to exercise the Lambda handler -/

/-- An API Gateway `POST` event carrying one inference record. -/
def samplePostEvent : List (String × PyVal) :=
  [("requestContext", .dict [("http", .dict [])]),
   ("httpMethod", .str "POST"),
   ("body", .str "L,298.4,308.2,1582,70.7,216")]

/-- An endpoint reply carrying one prediction with a score, as module 5's
inference container produces. -/
def sampleReply : InvokeCall → PyVal := fun _ =>
  .dict [("predictions", .list [.dict [("score", .float "0.9508")]])]

/-- An API Gateway `OPTIONS` (CORS preflight) event. -/
def sampleOptionsEvent : List (String × PyVal) :=
  [("requestContext", .dict [("http", .dict [])]),
   ("httpMethod", .str "OPTIONS")]

/-- An API Gateway `GET` event, a method the handler does not support. -/
def sampleGetEvent : List (String × PyVal) :=
  [("requestContext", .dict [("http", .dict [])]),
   ("httpMethod", .str "GET"),
   ("body", .str "")]

/-- An event with no `requestContext` key at all. -/
def sampleBareEvent : List (String × PyVal) :=
  [("httpMethod", .str "POST"),
   ("body", .str "L,298.4,308.2,1582,70.7,216")]

/-- The successful response dict built for a given status code and score. -/
def scoreResponse (status_code : Int) (score : PyVal) : PyVal :=
  .dict
    [("statusCode", .int status_code),
     ("body", .str (pyStr score)),
     ("headers", .dict
       [("Content-Type", .str "application/json"),
        ("Access-Control-Allow-Origin", .str "*"),
        ("Access-Control-Allow-Credentials", .str "true"),
        ("Access-Control-Allow-Headers", .str "*")])]

/-! ## Theorems -/

/-- C1: for every event that contains a `requestContext` key and whose
`httpMethod` is `POST`, `lambda_handler` invokes the endpoint named by
`ENDPOINT_NAME` with ContentType `text/csv` and Body exactly the event's
`body` field (unmodified and unvalidated), and returns a response with
statusCode 200 whose body is the string form of the `score` field of the
first element of the `predictions` array parsed from the endpoint's reply. -/
theorem lambda_handler_post_forwards_and_scores
    (reply : InvokeCall → PyVal) (event : List (String × PyVal))
    (b predictions first score : PyVal)
    (hrc : (event.lookup "requestContext").isSome = true)
    (hm : event.lookup "httpMethod" = some (.str "POST"))
    (hb : event.lookup "body" = some b)
    (hp : pyGetKey (reply ⟨ENDPOINT_NAME, "text/csv", b⟩) "predictions" = .ok predictions)
    (h0 : pyGetIdx predictions 0 = .ok first)
    (hs : pyGetKey first "score" = .ok score) :
    lambda_handler reply event =
      .ok ([⟨ENDPOINT_NAME, "text/csv", b⟩], some (scoreResponse 200 score)) := by
  have hpo : pyEqStr (.str "POST") "OPTIONS" = false := by rfl
  have hpp : pyEqStr (.str "POST") "POST" = true := by rfl
  simp only [lambda_handler, hrc, if_true, hm, hb, hpo, hpp, if_false,
    Bool.false_eq_true, ite_true, ite_false, build_response, hp, h0, hs,
    Except.bind, Except.map, bind, pure, Except.pure, scoreResponse]

/-- Witness for C1 at a concrete event and endpoint reply. -/
theorem lambda_handler_post_forwards_and_scores_witness :
    (samplePostEvent.lookup "requestContext").isSome = true ∧
    samplePostEvent.lookup "httpMethod" = some (.str "POST") ∧
    samplePostEvent.lookup "body" = some (.str "L,298.4,308.2,1582,70.7,216") ∧
    lambda_handler sampleReply samplePostEvent =
      .ok ([⟨ENDPOINT_NAME, "text/csv", .str "L,298.4,308.2,1582,70.7,216"⟩],
        some (scoreResponse 200 (.float "0.9508"))) :=
  ⟨rfl, rfl, rfl,
   lambda_handler_post_forwards_and_scores sampleReply samplePostEvent
     (.str "L,298.4,308.2,1582,70.7,216")
     (.list [.dict [("score", .float "0.9508")]])
     (.dict [("score", .float "0.9508")])
     (.float "0.9508") rfl rfl rfl rfl rfl rfl⟩

/-- C2 (divergence): at an `OPTIONS` event the handler calls
`build_response(200, '')`, which subscripts the string `''` with the key
`'predictions'` and therefore raises `TypeError` instead of returning a
statusCode-200 response with empty body and CORS headers. -/
theorem lambda_handler_options_raises_type_error :
    lambda_handler sampleReply sampleOptionsEvent =
      .error "TypeError: string indices must be integers" := by rfl

/-- C3 (divergence): at an event whose method is neither `OPTIONS` nor `POST`
the handler calls `build_response(405, 'null')`, which subscripts the string
`'null'` with the key `'predictions'` and therefore raises `TypeError`
instead of returning a statusCode-405 response. -/
theorem lambda_handler_get_raises_type_error :
    lambda_handler sampleReply sampleGetEvent =
      .error "TypeError: string indices must be integers" := by rfl

/-- C4: for every event that does not contain a `requestContext` key,
`lambda_handler` performs no endpoint invocation and returns Python's
implicit `None`, regardless of the event's `httpMethod`. -/
theorem lambda_handler_no_request_context
    (reply : InvokeCall → PyVal) (event : List (String × PyVal))
    (h : event.lookup "requestContext" = Option.none) :
    lambda_handler reply event = .ok ([], Option.none) := by
  simp only [lambda_handler, h, Option.isSome_none, Bool.false_eq_true, if_false]

/-- Witness for C4 at a concrete event lacking `requestContext`. -/
theorem lambda_handler_no_request_context_witness :
    sampleBareEvent.lookup "requestContext" = Option.none ∧
    lambda_handler sampleReply sampleBareEvent = .ok ([], Option.none) :=
  ⟨rfl, lambda_handler_no_request_context sampleReply sampleBareEvent rfl⟩

/-- C5 (counterexample): the direct_mode template declares no NAT gateway and
no security group, so it does not declare all of the claimed resource kinds. -/
theorem direct_mode_lacks_nat_and_security_group :
    directMode.natGateways = [] ∧ directMode.securityGroups = [] ∧
    directMode.declaresAllNetworking = false := by decide

/-- C5 (amended): the vpc_mode template declares a virtual network, subnets,
route tables, a NAT path — a NAT gateway with a default route from the private
route table to it — and a security group; the direct_mode template declares a
virtual network, subnets and route tables, but no NAT gateway and no security
group. -/
theorem networking_templates_resources :
    vpcMode.declaresAllNetworking = true ∧
    ({ name := "SageMakerPrivateRoute",
       RouteTableId := "SageMakerPrivateRouteTable",
       DestinationCidrBlock := ⟨ipv4 0 0 0 0, 0⟩,
       target := .natGw "SageMakerNATGateway" } : RouteRes) ∈ vpcMode.routes ∧
    ({ name := "SageMakerNATGateway",
       SubnetId := "SageMakerPublicSubnet1" } : NatGatewayRes) ∈ vpcMode.natGateways ∧
    directMode.vpcs.isEmpty = false ∧
    directMode.subnets.isEmpty = false ∧
    directMode.routeTables.isEmpty = false ∧
    directMode.natGateways = [] ∧
    directMode.securityGroups = [] := by decide

/-- C6: in both networking templates the VPC's CIDR block is `10.0.0.0/16`,
every declared subnet has a `/24` CIDR block contained in `10.0.0.0/16`, and
the subnet CIDR blocks within each template are pairwise disjoint. -/
theorem networking_cidrs_valid :
    vpcMode.vpcs.map VpcRes.CidrBlock = [⟨ipv4 10 0 0 0, 16⟩] ∧
    directMode.vpcs.map VpcRes.CidrBlock = [⟨ipv4 10 0 0 0, 16⟩] ∧
    (vpcMode.subnets.map (fun s => s.CidrBlock)).all
      (fun c => c.maskLen == 24 && c.subsetOf ⟨ipv4 10 0 0 0, 16⟩) = true ∧
    (directMode.subnets.map (fun s => s.CidrBlock)).all
      (fun c => c.maskLen == 24 && c.subsetOf ⟨ipv4 10 0 0 0, 16⟩) = true ∧
    pairwiseB Cidr.disjointWith (vpcMode.subnets.map (fun s => s.CidrBlock)) = true ∧
    pairwiseB Cidr.disjointWith (directMode.subnets.map (fun s => s.CidrBlock)) = true := by
  decide

/-- C7: both templates export, under names derived from the stack name, the
VPC identifier and two subnet identifiers; vpc_mode additionally exports the
security group identifier; and the two subnets exported by vpc_mode are its
private (NAT-routed) subnets. -/
theorem networking_outputs_as_declared :
    vpcMode.outputs.map OutputRes.valueRef =
      ["SageMakerVPC", "SageMakerPrivateSubnet1", "SageMakerPrivateSubnet2",
       "SageMakerSecurityGroup"] ∧
    directMode.outputs.map OutputRes.valueRef =
      ["SageMakerVPC", "SageMakerPublicSubnet1", "SageMakerPublicSubnet2"] ∧
    (∀ stackName : String,
      vpcMode.outputs.map (fun o => o.exportName stackName) =
        [stackName ++ "-VPC", stackName ++ "-Subnet1", stackName ++ "-Subnet2",
         stackName ++ "-SecurityGroup"]) ∧
    (∀ stackName : String,
      directMode.outputs.map (fun o => o.exportName stackName) =
        [stackName ++ "-VPC", stackName ++ "-Subnet1", stackName ++ "-Subnet2"]) ∧
    "SageMakerVPC" ∈ vpcMode.vpcs.map VpcRes.name ∧
    "SageMakerVPC" ∈ directMode.vpcs.map VpcRes.name ∧
    "SageMakerPrivateSubnet1" ∈ vpcMode.subnets.map SubnetRes.name ∧
    "SageMakerPrivateSubnet2" ∈ vpcMode.subnets.map SubnetRes.name ∧
    "SageMakerPublicSubnet1" ∈ directMode.subnets.map SubnetRes.name ∧
    "SageMakerPublicSubnet2" ∈ directMode.subnets.map SubnetRes.name ∧
    "SageMakerSecurityGroup" ∈ vpcMode.securityGroups.map SecurityGroupRes.name ∧
    vpcMode.natRoutedSubnets = ["SageMakerPrivateSubnet1", "SageMakerPrivateSubnet2"] := by
  refine ⟨by decide, by decide, fun s => rfl, fun s => rfl, ?_⟩
  decide

/-- `approvedBeforeEveryDeploy cells seen`: scanning the cells in order, every
deploy call is preceded (strictly) by an approval, given that `seen` records
whether an approval happened before the scanned cells. -/
def approvedBeforeEveryDeploy : List NotebookAction → Bool → Bool
  | [], _ => true
  | a :: rest, seen =>
    (!isDeploy a || seen) && approvedBeforeEveryDeploy rest (seen || isApprove a)

/-- C8: the model package is registered with the approval status given by the
`model_approval_status` parameter, whose default is `PendingManualApproval`;
in the notebook's execution section the status is updated to `Approved`
strictly before the deploy call, and no deploy precedes an approval. -/
theorem model_approved_before_deploy :
    model_approval_status_param.name = "model_approval_status" ∧
    model_approval_status_param.defaultValue = "PendingManualApproval" ∧
    register_model_step.approval_status = model_approval_status_param.name ∧
    executionCells.any isDeploy = true ∧
    executionCells.any isApprove = true ∧
    approvedBeforeEveryDeploy executionCells false = true ∧
    executionCells.findIdx isApprove < executionCells.findIdx isDeploy := by decide

/-- C9: all 20 workflow parameters declared in the pipeline notebook are
passed into the `Pipeline` builder's parameters list — in fact that list is
exactly the declared parameters, whatever the session bucket is. -/
theorem pipeline_parameters_complete (bucket : String) :
    (declaredParams bucket).length = 20 ∧
    (pipeline bucket).parameters = declaredParams bucket ∧
    (pipeline bucket).parameters.map WorkflowParam.name =
      ["raw_data_path", "train_data_path", "val_data_path", "test_data_path",
       "model_path", "processing_instance_type", "processing_instance_count",
       "train_test_split_ratio", "max_depth", "eta", "gamma",
       "min_child_weight", "objective", "num_round", "eval_metric",
       "training_instance_type", "training_instance_count", "output_path",
       "deploy_instance_type", "model_approval_status"] :=
  ⟨rfl, rfl, rfl⟩

/-- Witness for C9 at a concrete session bucket. -/
theorem pipeline_parameters_complete_witness :
    (declaredParams "sagemaker-eu-west-1-470317259841").length = 20 ∧
    (pipeline "sagemaker-eu-west-1-470317259841").parameters =
      declaredParams "sagemaker-eu-west-1-470317259841" ∧
    (pipeline "sagemaker-eu-west-1-470317259841").parameters.map WorkflowParam.name =
      ["raw_data_path", "train_data_path", "val_data_path", "test_data_path",
       "model_path", "processing_instance_type", "processing_instance_count",
       "train_test_split_ratio", "max_depth", "eta", "gamma",
       "min_child_weight", "objective", "num_round", "eval_metric",
       "training_instance_type", "training_instance_count", "output_path",
       "deploy_instance_type", "model_approval_status"] :=
  pipeline_parameters_complete "sagemaker-eu-west-1-470317259841"

/-- C10: the training step's `train` and `validation` inputs are exactly the
processing step's `train_data` and `val_data` outputs, referenced through the
processing step's properties, so the training step depends on the processing
step. -/
theorem training_step_inputs_from_processing :
    training_step.inputs.lookup "train" =
      some { s3_data := .stepOutput processing_step.name "train_data",
             content_type := "text/csv" } ∧
    training_step.inputs.lookup "validation" =
      some { s3_data := .stepOutput processing_step.name "val_data",
             content_type := "text/csv" } ∧
    "train_data" ∈ processing_step.outputs.map ProcessingOutputDef.output_name ∧
    "val_data" ∈ processing_step.outputs.map ProcessingOutputDef.output_name ∧
    trainingDependsOnProcessing training_step processing_step = true := by decide

end Workshop
